import Mathlib

/-!
Verification of the youtube-analytics-app core: the normalizer
(`DataProcessor.videos_to_dataframe` in data_utils.py), the persistence layer
(`DatabaseManager.insert_videos` in database.py), and the filter/metric logic
of youtube_analytics_app.py.  Python dictionaries are embedded as association
lists, pandas dataframes as lists of rows, and the sqlite `videos` table as a
list of rows in insertion order.
-/

/-- A Python runtime error raised by the normalizer:
`typeError` models `TypeError: string indices must be integers` from indexing
a string with a string key; `keyError k` models `KeyError: k` from indexing a
dict with an absent key. -/
inductive PyErr where
  | typeError
  | keyError (k : String)
deriving DecidableEq, Repr

/-- The `id` field of a raw API item: search results carry a nested object
(dict), detail items carry a flat string. -/
inductive IdField where
  | flat (s : String)
  | obj (entries : List (String × String))
deriving DecidableEq, Repr

/-- The value the normalizer stores under "Video ID": either a string (the
flat id, or the extracted `videoId` sub-field) or, when the id is a dict
without a `videoId` key, the dict itself. -/
inductive IdVal where
  | str (s : String)
  | dict (entries : List (String × String))
deriving DecidableEq, Repr

/-- A raw API result item as consumed by `videos_to_dataframe`: an `id` field
of either shape and a `snippet` dict of string fields. -/
structure RawItem where
  id : IdField
  snippet : List (String × String)
deriving DecidableEq, Repr

/-- One normalized output record of `videos_to_dataframe`
(one row of the produced dataframe). -/
structure VideoRecord where
  videoId : IdVal
  title : String
  description : String
  channelTitle : String
  publishedAt : String
deriving DecidableEq, Repr

/-- `containsSeq needle hay` is true when `needle` occurs as a contiguous
subsequence of `hay`: the semantics of Python's `in` on strings. -/
def containsSeq (needle : List Char) : List Char → Bool
  | [] => needle.isEmpty
  | c :: cs => needle.isPrefixOf (c :: cs) || containsSeq needle cs

/-- Python's `"videoId" in x`: key membership when `x` is a dict, substring
membership when `x` is a string (data_utils.py line 10). -/
def videoIdMember (id : IdField) : Bool :=
  match id with
  | .flat s => containsSeq "videoId".toList s.toList
  | .obj entries => (entries.lookup "videoId").isSome

/-- data_utils.py line 10:
`video["id"]["videoId"] if "videoId" in video["id"] else video["id"]`.
When the membership test succeeds on a flat string, Python evaluates
`s["videoId"]`, which raises `TypeError`. -/
def extract_video_id (id : IdField) : Except PyErr IdVal :=
  if videoIdMember id then
    match id with
    | .flat _ => .error .typeError
    | .obj entries =>
      match entries.lookup "videoId" with
      | some v => .ok (.str v)
      | none => .ok (.dict entries)
  else
    match id with
    | .flat s => .ok (.str s)
    | .obj entries => .ok (.dict entries)

/-- data_utils.py lines 9-17, for a single raw item: extract the id (line 10),
then build the record; `snippet["title"]` raises `KeyError` when absent, the
other snippet fields use `.get(key, "")`. -/
def normalizeVideo (video : RawItem) : Except PyErr VideoRecord :=
  match extract_video_id video.id with
  | .error e => .error e
  | .ok vid =>
    match video.snippet.lookup "title" with
    | none => .error (.keyError "title")
    | some t =>
      .ok { videoId := vid
            title := t
            description := (video.snippet.lookup "description").getD ""
            channelTitle := (video.snippet.lookup "channelTitle").getD ""
            publishedAt := (video.snippet.lookup "publishedAt").getD "" }

/-- `DataProcessor.videos_to_dataframe` (data_utils.py lines 6-18): normalize
each raw item in order, accumulating the rows of the dataframe; the first
Python exception aborts the whole call. -/
def videos_to_dataframe : List RawItem → Except PyErr (List VideoRecord)
  | [] => .ok []
  | v :: vs =>
    match normalizeVideo v with
    | .error e => .error e
    | .ok r =>
      match videos_to_dataframe vs with
      | .error e => .error e
      | .ok rs => .ok (r :: rs)

/-! ## Persistence layer (database.py) -/

/-- One row of the sqlite `videos` table created by
`DatabaseManager._create_table` (database.py lines 11-21): columns
`video_id` (TEXT PRIMARY KEY), `title`, `description`, `channel_title`,
`published_at`. -/
structure VideoRow where
  video_id : String
  title : String
  description : String
  channel_title : String
  published_at : String
deriving DecidableEq, Repr

/-- `table` holds a row whose `video_id` column equals `i`
(the PRIMARY KEY conflict test of `INSERT OR IGNORE`). -/
def hasVideoId (table : List VideoRow) (i : String) : Bool :=
  table.any (fun r => r.video_id == i)

/-- One `INSERT OR IGNORE INTO videos ...` statement (database.py
lines 25-31): append the row when its primary key is absent, leave the table
untouched when it is present. -/
def insertOrIgnoreRow (table : List VideoRow) (r : VideoRow) : List VideoRow :=
  if hasVideoId table r.video_id then table else table ++ [r]

/-- `DatabaseManager.insert_videos` (database.py lines 23-32): executes one
`INSERT OR IGNORE` per dataframe row, in order, then commits.  The pair's
second component is the Python return value: the function body has no
`return` statement, so it returns `None` (embedded as `none`; a returned
integer count would be `some n`). -/
def insert_videos (table : List VideoRow) (df : List VideoRow) :
    List VideoRow × Option Nat :=
  (df.foldl insertOrIgnoreRow table, none)

/-! ## Search-result filtering (youtube_analytics_app.py lines 579-588) -/

/-- One row of the search-results dataframe, with the columns the filters at
youtube_analytics_app.py lines 579-588 read: `view_count`, and
`channel_subscriber_count` where `none` embeds a pandas NaN (subscriber data
absent for that record). -/
structure SearchRow where
  view_count : Nat
  channel_subscriber_count : Option Nat
deriving DecidableEq, Repr

/-- The search-results dataframe: its rows plus whether the
`channel_subscriber_count` column exists at all (pandas column presence is a
dataframe-level property, tested by
`'channel_subscriber_count' in processed_data.columns`). -/
structure SearchFrame where
  hasSubscriberColumn : Bool
  rows : List SearchRow
deriving DecidableEq, Repr

/-- Pandas `x <= bound` on a numeric column entry: `False` when the entry is
NaN (absent), the ordinary comparison otherwise. -/
def nanLe (x : Option Nat) (bound : Nat) : Bool :=
  match x with
  | some s => s ≤ bound
  | none => false

/-- youtube_analytics_app.py lines 579-582: `if min_views > 0:` filter the
frame down to the rows with `view_count >= min_views`. -/
def apply_view_filter (min_views : Nat) (df : SearchFrame) : SearchFrame :=
  if 0 < min_views then
    { df with rows := df.rows.filter (fun r => decide (min_views ≤ r.view_count)) }
  else df

/-- youtube_analytics_app.py lines 584-588: when `max_subscribers > 0` and
the `channel_subscriber_count` column exists, filter the frame down to the
rows whose entry compares `<= max_subscribers` (NaN compares False). -/
def apply_subscriber_filter (max_subscribers : Nat) (df : SearchFrame) :
    SearchFrame :=
  if 0 < max_subscribers ∧ df.hasSubscriberColumn = true then
    let keep := fun r => nanLe r.channel_subscriber_count max_subscribers
    { df with rows := df.rows.filter keep }
  else df

/-- youtube_analytics_app.py lines 579-588: the view-count filter followed by
the subscriber filter. -/
def apply_search_filters (min_views max_subscribers : Nat) (df : SearchFrame) :
    SearchFrame :=
  apply_subscriber_filter max_subscribers (apply_view_filter min_views df)

/-! ## Channel metrics (spec-modelled engine + youtube_analytics_app.py lines 274-280) -/

/-- Modelled from the spec: `DataProcessor.calculate_metrics` is not under
src/ (only its caller at youtube_analytics_app.py lines 209-210 is).  Spec §3:
"`views_per_subscriber = view_count / subscriber_count` when
subscriber_count > 0, else undefined (must not divide by zero)".  `none`
embeds "undefined"; an absent/hidden subscriber count reaches the engine as
count 0. -/
def views_per_subscriber (view_count subscriber_count : Nat) : Option ℚ :=
  if 0 < subscriber_count then some ((view_count : ℚ) / (subscriber_count : ℚ))
  else none

/-- Arithmetic mean of a list of rationals (pandas `.mean()` on a non-empty
numeric column). -/
def qMean (l : List ℚ) : ℚ := l.sum / (l.length : ℚ)

/-- The metric shown in the third overview column. -/
inductive ChannelMetric where
  | avgViewsPerSubscriber (value : ℚ)
  | avgViewsPerVideo (value : ℚ)
deriving DecidableEq, Repr

/-- youtube_analytics_app.py lines 274-280: when the channel's subscriber
count is positive, display the mean of the `views_per_subscriber` column
(each entry `view_count / subscriber_count`); otherwise fall back to the mean
of `view_count` (average views per video). -/
def ratio_metric_display (subscriber_count : Nat) (view_counts : List Nat) :
    ChannelMetric :=
  if 0 < subscriber_count then
    .avgViewsPerSubscriber
      (qMean (view_counts.map (fun vc => (vc : ℚ) / (subscriber_count : ℚ))))
  else
    .avgViewsPerVideo (qMean (view_counts.map (fun vc => (vc : ℚ))))

/-! ## Date filtering (spec-modelled) -/

/-- A record as seen by the date filter: its published timestamp, normalized
to seconds since the epoch. -/
structure VideoTs where
  publishedTs : Nat
deriving DecidableEq, Repr

/-- A date bound without an explicit time-of-day component normalizes to
00:00:00 of that day: day number `d` becomes second `d * 86400`. -/
def dayStart (d : Nat) : Nat := d * 86400

/-- Modelled from the spec: `DataProcessor.filter_videos_by_date` is not
under src/ (only its caller at youtube_analytics_app.py lines 198-206 is).
Spec §4.2: "retain records whose published timestamp falls within an
inclusive [start, end] range; both bounds optional independently; when both
absent, no filtering occurs", with timestamps normalized before comparison. -/
def filter_videos_by_date (videos : List VideoTs)
    (startBound stopBound : Option Nat) : List VideoTs :=
  match startBound, stopBound with
  | none, none => videos
  | _, _ =>
    videos.filter (fun v =>
      (match startBound with
       | some s => decide (s ≤ v.publishedTs)
       | none => true) &&
      (match stopBound with
       | some e => decide (v.publishedTs ≤ e)
       | none => true))

example : extract_video_id (.obj [("kind", "x"), ("videoId", "abc")]) = .ok (.str "abc") := rfl
example : extract_video_id (.flat "abc") = .ok (.str "abc") := rfl
example : extract_video_id (.flat "videoId") = .error .typeError := rfl
example : extract_video_id (.flat "xxvideoIdyy") = .error .typeError := rfl
example : extract_video_id (.obj [("kind", "x")]) = .ok (.dict [("kind", "x")]) := rfl
example :
    videos_to_dataframe [⟨.flat "abc", [("title", "T1")]⟩] =
      .ok [⟨.str "abc", "T1", "", "", ""⟩] := rfl
example :
    videos_to_dataframe [⟨.obj [("videoId", "abc")], [("title", "T1")]⟩] =
      .ok [⟨.str "abc", "T1", "", "", ""⟩] := rfl
example :
    videos_to_dataframe [⟨.flat "abc", [("publishedAt", "p")]⟩] =
      .error (.keyError "title") := rfl
example :
    insert_videos [] [⟨"a", "t", "d", "c", "p"⟩, ⟨"a", "u", "e", "f", "q"⟩] =
      ([⟨"a", "t", "d", "c", "p"⟩], none) := rfl
example :
    insert_videos [⟨"a", "t", "d", "c", "p"⟩] [⟨"a", "t", "d", "c", "p"⟩] =
      ([⟨"a", "t", "d", "c", "p"⟩], none) := rfl
example :
    apply_search_filters 0 10 ⟨true, [⟨5, none⟩]⟩ = ⟨true, []⟩ := rfl
example :
    apply_search_filters 0 10 ⟨false, [⟨5, none⟩]⟩ = ⟨false, [⟨5, none⟩]⟩ := rfl
example :
    apply_search_filters 3 10 ⟨true, [⟨5, some 4⟩, ⟨2, some 4⟩, ⟨9, some 11⟩]⟩ =
      ⟨true, [⟨5, some 4⟩]⟩ := rfl
example : views_per_subscriber 500 1000 = some (1 / 2) := by
  simp [views_per_subscriber]
  norm_num
example : views_per_subscriber 500 0 = none := rfl
example :
    filter_videos_by_date [⟨86400⟩, ⟨86399⟩] (some (dayStart 1)) (some 90000) =
      [⟨86400⟩] := rfl
example : filter_videos_by_date [⟨86400⟩, ⟨86399⟩] none none = [⟨86400⟩, ⟨86399⟩] := rfl

/-! ## Theorems -/

/-- C9: the flat-identifier branch is only taken when the flat id string does
not contain the substring "videoId": for any raw item whose id field is a
plain string containing "videoId" as a substring, the membership test selects
the nested-object branch and the normalizer fails with the `TypeError` of
indexing a string with a string key, instead of returning the id. -/
theorem C9_flat_id_with_videoId_substring_fails :
    ∀ (s : String) (snip : List (String × String)),
      containsSeq "videoId".toList s.toList = true →
      normalizeVideo ⟨.flat s, snip⟩ = .error .typeError ∧
      videos_to_dataframe [⟨.flat s, snip⟩] = .error .typeError := by
  intro s snip h
  have hid : extract_video_id (.flat s) = .error .typeError := by
    simp [extract_video_id, videoIdMember, h]
    exact h
  have hn : normalizeVideo ⟨.flat s, snip⟩ = .error .typeError := by
    simp [normalizeVideo, hid]
  exact ⟨hn, by simp [videos_to_dataframe, hn]⟩

/-- C9 witness: the flat id "xvideoIdy" contains "videoId". -/
theorem C9_flat_id_with_videoId_substring_fails_witness :
    normalizeVideo ⟨.flat "xvideoIdy", [("title", "T")]⟩ = .error .typeError ∧
    videos_to_dataframe [⟨.flat "xvideoIdy", [("title", "T")]⟩] =
      .error .typeError :=
  C9_flat_id_with_videoId_substring_fails "xvideoIdy" [("title", "T")] rfl

/-- C1 counterexample: for the raw item whose id field is the plain string
"videoId" (which is not an object containing a videoId sub-field), the claim
says the id field itself is used, so normalization would succeed with
video id "videoId"; the code instead fails with a `TypeError`. -/
theorem C1_counterexample_flat_videoId_string :
    videos_to_dataframe [⟨.flat "videoId", [("title", "T")]⟩] =
      .error .typeError ∧
    videos_to_dataframe [⟨.flat "videoId", [("title", "T")]⟩] ≠
      .ok [⟨.str "videoId", "T", "", "", ""⟩] := by
  refine ⟨rfl, ?_⟩
  intro hcon
  rw [show videos_to_dataframe [⟨.flat "videoId", [("title", "T")]⟩] =
        .error .typeError from rfl] at hcon
  exact Except.noConfusion hcon

/-- C1 (amended): if the id field is an object containing a videoId
sub-field, that sub-field is used; if it is an object without that sub-field,
the object itself is used; if it is a flat string not containing "videoId" as
a substring, the string itself is used; and two raw items with the same
snippet whose ids are the object shape `{videoId: s}` and the flat shape `s`
(with `s` free of the substring "videoId") normalize identically. -/
theorem C1_identifier_branching_amended :
    (∀ (entries : List (String × String)) (v : String),
       entries.lookup "videoId" = some v →
       extract_video_id (.obj entries) = .ok (.str v)) ∧
    (∀ entries : List (String × String),
       entries.lookup "videoId" = none →
       extract_video_id (.obj entries) = .ok (.dict entries)) ∧
    (∀ s : String, containsSeq "videoId".toList s.toList = false →
       extract_video_id (.flat s) = .ok (.str s)) ∧
    (∀ (s : String) (snip : List (String × String)),
       containsSeq "videoId".toList s.toList = false →
       normalizeVideo ⟨.obj [("videoId", s)], snip⟩ =
         normalizeVideo ⟨.flat s, snip⟩) := by
  refine ⟨?_, ?_, ?_, ?_⟩
  · intro entries v h
    simp [extract_video_id, videoIdMember, h]
  · intro entries h
    simp [extract_video_id, videoIdMember, h]
  · intro s h
    simp [extract_video_id, videoIdMember, h]
    exact h
  · intro s snip h
    have h1 : extract_video_id (.obj [("videoId", s)]) = .ok (.str s) := by
      simp [extract_video_id, videoIdMember, List.lookup]
    have h2 : extract_video_id (.flat s) = .ok (.str s) := by
      simp [extract_video_id, videoIdMember, h]
      exact h
    simp [normalizeVideo, h1, h2]

/-- C1 witness: both branches and the shape-equivalence at concrete inputs. -/
theorem C1_identifier_branching_amended_witness :
    extract_video_id (.obj [("videoId", "abc")]) = .ok (.str "abc") ∧
    extract_video_id (.obj [("kind", "k")]) = .ok (.dict [("kind", "k")]) ∧
    extract_video_id (.flat "abc") = .ok (.str "abc") ∧
    normalizeVideo ⟨.obj [("videoId", "abc")], [("title", "T")]⟩ =
      normalizeVideo ⟨.flat "abc", [("title", "T")]⟩ :=
  ⟨C1_identifier_branching_amended.1 [("videoId", "abc")] "abc" rfl,
   C1_identifier_branching_amended.2.1 [("kind", "k")] rfl,
   C1_identifier_branching_amended.2.2.1 "abc" rfl,
   C1_identifier_branching_amended.2.2.2 "abc" [("title", "T")] rfl⟩

/-- C5: absence of snippet.title makes normalization of that item fail, while
absence of description, channelTitle or publishedAt defaults the field to the
empty string: every successfully normalized record carries the `getD ""`
defaults, and an item with only a title in its snippet (and a well-formed id)
normalizes successfully with empty defaults. -/
theorem C5_title_hard_error_others_default :
    (∀ v : RawItem, v.snippet.lookup "title" = none →
       ∃ e, normalizeVideo v = .error e) ∧
    (∀ (v : RawItem) (r : VideoRecord), normalizeVideo v = .ok r →
       r.description = (v.snippet.lookup "description").getD "" ∧
       r.channelTitle = (v.snippet.lookup "channelTitle").getD "" ∧
       r.publishedAt = (v.snippet.lookup "publishedAt").getD "") ∧
    (∀ (id : IdField) (snip : List (String × String)) (vid : IdVal) (t : String),
       extract_video_id id = .ok vid → snip.lookup "title" = some t →
       normalizeVideo ⟨id, snip⟩ =
         .ok ⟨vid, t, (snip.lookup "description").getD "",
              (snip.lookup "channelTitle").getD "",
              (snip.lookup "publishedAt").getD ""⟩) := by
  refine ⟨?_, ?_, ?_⟩
  · intro v h
    unfold normalizeVideo
    cases hid : extract_video_id v.id with
    | error e => exact ⟨e, rfl⟩
    | ok vid => exact ⟨.keyError "title", by simp [h]⟩
  · intro v r h
    unfold normalizeVideo at h
    cases hid : extract_video_id v.id with
    | error e => rw [hid] at h; exact Except.noConfusion h
    | ok vid =>
      rw [hid] at h
      cases ht : v.snippet.lookup "title" with
      | none => rw [ht] at h; exact Except.noConfusion h
      | some t =>
        rw [ht] at h
        cases h
        exact ⟨rfl, rfl, rfl⟩
  · intro id snip vid t hid ht
    simp [normalizeVideo, hid, ht]

/-- C5 witness: a snippet with only a title normalizes with empty defaults,
applied at a concrete item. -/
theorem C5_title_hard_error_others_default_witness :
    normalizeVideo ⟨.flat "abc", [("title", "T")]⟩ =
      .ok ⟨.str "abc", "T", "", "", ""⟩ :=
  C5_title_hard_error_others_default.2.2 (.flat "abc") [("title", "T")]
    (.str "abc") "T" rfl rfl

/-! ### Helper lemmas about `insert_videos` -/

/-- Folding `INSERT OR IGNORE` statements only ever appends rows. -/
theorem foldl_insert_append (df : List VideoRow) (t : List VideoRow) :
    ∃ s, df.foldl insertOrIgnoreRow t = t ++ s := by
  induction df generalizing t with
  | nil => exact ⟨[], by simp⟩
  | cons r rest ih =>
    rcases ih (insertOrIgnoreRow t r) with ⟨s, hs⟩
    by_cases h : hasVideoId t r.video_id = true
    · exact ⟨s, by simpa [insertOrIgnoreRow, h] using hs⟩
    · refine ⟨r :: s, ?_⟩
      rw [List.foldl_cons, hs]
      simp [insertOrIgnoreRow, h]

/-- A primary key present before a batch of inserts is present after it. -/
theorem hasVideoId_foldl_mono (df : List VideoRow) (t : List VideoRow)
    (i : String) (h : hasVideoId t i = true) :
    hasVideoId (df.foldl insertOrIgnoreRow t) i = true := by
  rcases foldl_insert_append df t with ⟨s, hs⟩
  rw [hs]
  unfold hasVideoId at h ⊢
  simp [List.any_append, h]

/-- After a batch of inserts, every primary key of the batch is present. -/
theorem hasVideoId_foldl_of_mem (df : List VideoRow) (t : List VideoRow)
    (r : VideoRow) :
    r ∈ df → hasVideoId (df.foldl insertOrIgnoreRow t) r.video_id = true := by
  induction df generalizing t with
  | nil => intro hr; cases hr
  | cons a rest ih =>
    intro hr
    rw [List.foldl_cons]
    rcases List.mem_cons.mp hr with h | h
    · subst h
      apply hasVideoId_foldl_mono
      by_cases hh : hasVideoId t r.video_id = true
      · simp [insertOrIgnoreRow, hh]
      · rw [show insertOrIgnoreRow t r = t ++ [r] from by simp [insertOrIgnoreRow, hh]]
        unfold hasVideoId
        simp [List.any_append]
    · exact ih (insertOrIgnoreRow t a) h

/-- A batch whose primary keys are all already present changes nothing. -/
theorem foldl_insert_saturated (df : List VideoRow) (t : List VideoRow) :
    (∀ r ∈ df, hasVideoId t r.video_id = true) →
    df.foldl insertOrIgnoreRow t = t := by
  induction df with
  | nil => intro _; rfl
  | cons a rest ih =>
    intro h
    have ha : hasVideoId t a.video_id = true := h a (List.mem_cons_self a rest)
    have hstep : insertOrIgnoreRow t a = t := by simp [insertOrIgnoreRow, ha]
    rw [List.foldl_cons, hstep]
    exact ih (fun r hr => h r (List.mem_cons_of_mem a hr))

/-- When key `i` is already present, a batch of inserts adds no further row
with that key: any row of the result carrying `i` was already in the table. -/
theorem foldl_insert_no_second_row (df : List VideoRow) (t : List VideoRow)
    (i : String) :
    hasVideoId t i = true →
    ∀ r' ∈ df.foldl insertOrIgnoreRow t, r'.video_id = i → r' ∈ t := by
  induction df generalizing t with
  | nil => intro _ r' hr' _; simpa using hr'
  | cons a rest ih =>
    intro h r' hr' hi
    rw [List.foldl_cons] at hr'
    by_cases ha : hasVideoId t a.video_id = true
    · rw [show insertOrIgnoreRow t a = t from by simp [insertOrIgnoreRow, ha]] at hr'
      exact ih t h r' hr' hi
    · rw [show insertOrIgnoreRow t a = t ++ [a] from by
          simp [insertOrIgnoreRow, ha]] at hr'
      have h2 : hasVideoId (t ++ [a]) i = true := by
        unfold hasVideoId at h ⊢
        simp [List.any_append, h]
      rcases List.mem_append.mp (ih (t ++ [a]) h2 r' hr' hi) with h3 | h3
      · exact h3
      · exfalso
        have ha2 : r' = a := by simpa using h3
        subst ha2
        rw [hi] at ha
        exact ha h

/-- `hasVideoId` agrees with membership in the projected key column. -/
theorem hasVideoId_iff_mem_map (t : List VideoRow) (i : String) :
    hasVideoId t i = true ↔ i ∈ t.map (fun r => r.video_id) := by
  unfold hasVideoId
  simp [List.any_eq_true, List.mem_map]

/-- One `INSERT OR IGNORE` preserves uniqueness of the primary-key column. -/
theorem nodup_ids_insertOrIgnoreRow (t : List VideoRow) (r : VideoRow)
    (h : (t.map (fun x => x.video_id)).Nodup) :
    ((insertOrIgnoreRow t r).map (fun x => x.video_id)).Nodup := by
  by_cases hr : hasVideoId t r.video_id = true
  · simpa [insertOrIgnoreRow, hr]
  · rw [show insertOrIgnoreRow t r = t ++ [r] from by simp [insertOrIgnoreRow, hr]]
    rw [List.map_append, List.nodup_append]
    refine ⟨h, by simp, ?_⟩
    intro a ha hb
    have hb' : a = r.video_id := by simpa using hb
    subst hb'
    exact hr ((hasVideoId_iff_mem_map t r.video_id).mpr ha)

/-- A batch of `INSERT OR IGNORE` statements preserves uniqueness of the
primary-key column. -/
theorem nodup_ids_foldl_insert (df : List VideoRow) (t : List VideoRow)
    (h : (t.map (fun x => x.video_id)).Nodup) :
    ((df.foldl insertOrIgnoreRow t).map (fun x => x.video_id)).Nodup := by
  induction df generalizing t with
  | nil => simpa using h
  | cons a rest ih =>
    rw [List.foldl_cons]
    exact ih (insertOrIgnoreRow t a) (nodup_ids_insertOrIgnoreRow t a h)

/-! ### Persistence claims -/

/-- C3 counterexample: the claim says re-inserting an existing `video_id`
returns inserted-count 0; `insert_videos` has no return statement, so the
call returns `None`, not the integer 0. -/
theorem C3_counterexample_no_count_returned :
    (insert_videos [⟨"a", "t", "d", "c", "p"⟩] [⟨"a", "t", "d", "c", "p"⟩]).2
        = none ∧
    (insert_videos [⟨"a", "t", "d", "c", "p"⟩] [⟨"a", "t", "d", "c", "p"⟩]).2
        ≠ some 0 := by
  refine ⟨rfl, ?_⟩
  intro h
  exact Option.noConfusion h

/-- C3 (amended): each record is inserted when its `video_id` is absent from
the store and skipped (never overwritten) when present, and the operation
returns no inserted-count (it returns `None`); in particular inserting a
record whose `video_id` already exists leaves the table unchanged. -/
theorem C3_insert_or_skip_returns_none :
    ∀ (t df : List VideoRow) (r : VideoRow),
      (insert_videos t df).2 = none ∧
      (hasVideoId t r.video_id = true → (insert_videos t [r]).1 = t) ∧
      (hasVideoId t r.video_id = false → (insert_videos t [r]).1 = t ++ [r]) := by
  intro t df r
  refine ⟨rfl, ?_, ?_⟩
  · intro h
    simp [insert_videos, insertOrIgnoreRow, h]
  · intro h
    simp [insert_videos, insertOrIgnoreRow, h]

/-- C3 witness: skip on an existing key, insert on a fresh key, `None`
returned, at concrete rows. -/
theorem C3_insert_or_skip_returns_none_witness :
    (insert_videos [⟨"a", "t", "d", "c", "p"⟩] []).2 = none ∧
    (insert_videos [⟨"a", "t", "d", "c", "p"⟩] [⟨"a", "u", "e", "f", "q"⟩]).1
        = [⟨"a", "t", "d", "c", "p"⟩] ∧
    (insert_videos [⟨"a", "t", "d", "c", "p"⟩] [⟨"b", "u", "e", "f", "q"⟩]).1
        = [⟨"a", "t", "d", "c", "p"⟩, ⟨"b", "u", "e", "f", "q"⟩] :=
  ⟨(C3_insert_or_skip_returns_none [⟨"a", "t", "d", "c", "p"⟩] []
      ⟨"a", "t", "d", "c", "p"⟩).1,
   (C3_insert_or_skip_returns_none [⟨"a", "t", "d", "c", "p"⟩] []
      ⟨"a", "u", "e", "f", "q"⟩).2.1 rfl,
   (C3_insert_or_skip_returns_none [⟨"a", "t", "d", "c", "p"⟩] []
      ⟨"b", "u", "e", "f", "q"⟩).2.2 rfl⟩

/-- C8: `insert_videos` never updates an existing row in place and never
deletes a row: the resulting table is the prior table with rows appended, so
every prior row is still present, identical, at its original position. -/
theorem C8_insert_videos_never_mutates :
    ∀ (t df : List VideoRow),
      (∃ s, (insert_videos t df).1 = t ++ s) ∧
      (∀ n, n < t.length → (insert_videos t df).1[n]? = t[n]?) := by
  intro t df
  rcases foldl_insert_append df t with ⟨s, hs⟩
  refine ⟨⟨s, hs⟩, ?_⟩
  intro n hn
  show (df.foldl insertOrIgnoreRow t)[n]? = t[n]?
  rw [hs, List.getElem?_append]
  simp [hn]

/-- C8 witness: a batch over a non-empty table keeps the prior row at its
position. -/
theorem C8_insert_videos_never_mutates_witness :
    (insert_videos [⟨"a", "t", "d", "c", "p"⟩]
        [⟨"a", "u", "e", "f", "q"⟩, ⟨"b", "u", "e", "f", "q"⟩]).1[0]?
      = some ⟨"a", "t", "d", "c", "p"⟩ := by
  rw [(C8_insert_videos_never_mutates [⟨"a", "t", "d", "c", "p"⟩]
        [⟨"a", "u", "e", "f", "q"⟩, ⟨"b", "u", "e", "f", "q"⟩]).2 0
        (by decide)]
  rfl

/-- C4: inserting the same record set twice is the same as inserting it once;
starting from a table whose primary-key column is duplicate-free (the sqlite
PRIMARY KEY invariant), the result's key column stays duplicate-free and each
inserted key occupies exactly one row. -/
theorem C4_insert_videos_idempotent :
    ∀ (t df : List VideoRow),
      (t.map (fun r => r.video_id)).Nodup →
      (insert_videos (insert_videos t df).1 df).1 = (insert_videos t df).1 ∧
      (((insert_videos t df).1.map (fun r => r.video_id)).Nodup) ∧
      (∀ r ∈ df,
        List.count r.video_id ((insert_videos t df).1.map (fun x => x.video_id))
          = 1) := by
  intro t df hnd
  refine ⟨?_, ?_, ?_⟩
  · exact foldl_insert_saturated df (df.foldl insertOrIgnoreRow t)
      (fun r hr => hasVideoId_foldl_of_mem df t r hr)
  · exact nodup_ids_foldl_insert df t hnd
  · intro r hr
    exact List.count_eq_one_of_mem (nodup_ids_foldl_insert df t hnd)
      ((hasVideoId_iff_mem_map _ _).mp (hasVideoId_foldl_of_mem df t r hr))

/-- C4 witness: inserting a two-copy batch twice from the empty table yields
one row with the key, and the second call is a no-op. -/
theorem C4_insert_videos_idempotent_witness :
    (insert_videos
        (insert_videos [] [⟨"a", "t", "d", "c", "p"⟩, ⟨"a", "u", "e", "f", "q"⟩]).1
        [⟨"a", "t", "d", "c", "p"⟩, ⟨"a", "u", "e", "f", "q"⟩]).1
      = (insert_videos [] [⟨"a", "t", "d", "c", "p"⟩, ⟨"a", "u", "e", "f", "q"⟩]).1 ∧
    List.count "a"
        ((insert_videos [] [⟨"a", "t", "d", "c", "p"⟩, ⟨"a", "u", "e", "f", "q"⟩]).1.map
          (fun x => x.video_id)) = 1 :=
  ⟨(C4_insert_videos_idempotent []
      [⟨"a", "t", "d", "c", "p"⟩, ⟨"a", "u", "e", "f", "q"⟩] (by simp)).1,
   (C4_insert_videos_idempotent []
      [⟨"a", "t", "d", "c", "p"⟩, ⟨"a", "u", "e", "f", "q"⟩] (by simp)).2.2
      ⟨"a", "t", "d", "c", "p"⟩ (by simp)⟩

/-- C10: within a single `insert_videos` batch containing several records
with the same `video_id` (not yet in the store), the first occurrence in
input order is the one stored, and every row of the result carrying that key
is that first occurrence. -/
theorem C10_first_wins_within_batch :
    ∀ (t df : List VideoRow) (i : String) (r : VideoRow),
      hasVideoId t i = false →
      df.find? (fun x => x.video_id == i) = some r →
      r ∈ (insert_videos t df).1 ∧
      ∀ r' ∈ (insert_videos t df).1, r'.video_id = i → r' = r := by
  intro t df i r
  induction df generalizing t with
  | nil =>
    intro _ hf
    exact absurd hf (by simp)
  | cons a rest ih =>
    intro ht hf
    by_cases ha : (a.video_id == i) = true
    · have hr : r = a := by
        rw [List.find?_cons_of_pos rest ha] at hf
        exact (Option.some.inj hf).symm
      subst hr
      have hai : r.video_id = i := by simpa using ha
      have hstep : insertOrIgnoreRow t r = t ++ [r] := by
        unfold insertOrIgnoreRow
        rw [hai]
        simp [ht]
      constructor
      · show r ∈ (r :: rest).foldl insertOrIgnoreRow t
        rw [List.foldl_cons, hstep]
        rcases foldl_insert_append rest (t ++ [r]) with ⟨s, hs⟩
        rw [hs]
        simp
      · intro r' hr' hi'
        have hmem : hasVideoId (t ++ [r]) i = true := by
          unfold hasVideoId
          simp [List.any_append, hai]
        have hr'' : r' ∈ rest.foldl insertOrIgnoreRow (t ++ [r]) := by
          have : r' ∈ (r :: rest).foldl insertOrIgnoreRow t := hr'
          rwa [List.foldl_cons, hstep] at this
        rcases List.mem_append.mp
            (foldl_insert_no_second_row rest (t ++ [r]) i hmem r' hr'' hi') with
          h1 | h1
        · exfalso
          have : hasVideoId t i = true := by
            unfold hasVideoId
            exact List.any_eq_true.mpr ⟨r', h1, by simp [hi']⟩
          rw [ht] at this
          exact Bool.noConfusion this
        · simpa using h1
    · have hai : ¬ a.video_id = i := by simpa using ha
      rw [List.find?_cons_of_neg rest ha] at hf
      have ht' : hasVideoId (insertOrIgnoreRow t a) i = false := by
        by_cases hh : hasVideoId t a.video_id = true
        · simpa [insertOrIgnoreRow, hh] using ht
        · rw [show insertOrIgnoreRow t a = t ++ [a] from by
              simp [insertOrIgnoreRow, hh]]
          unfold hasVideoId at ht ⊢
          simp only [List.any_append, Bool.or_eq_false_iff]
          exact ⟨ht, by simpa using hai⟩
      have hres := ih (insertOrIgnoreRow t a) ht' hf
      constructor
      · show r ∈ (a :: rest).foldl insertOrIgnoreRow t
        rw [List.foldl_cons]
        exact hres.1
      · intro r' hr' hi'
        refine hres.2 r' ?_ hi'
        have : r' ∈ (a :: rest).foldl insertOrIgnoreRow t := hr'
        rwa [List.foldl_cons] at this

/-- C10 witness: a batch with two records sharing key "a" over the empty
table stores the first and only the first. -/
theorem C10_first_wins_within_batch_witness :
    (⟨"a", "t", "d", "c", "p"⟩ : VideoRow) ∈
      (insert_videos [] [⟨"a", "t", "d", "c", "p"⟩, ⟨"a", "u", "e", "f", "q"⟩]).1 ∧
    ∀ r' ∈ (insert_videos []
        [⟨"a", "t", "d", "c", "p"⟩, ⟨"a", "u", "e", "f", "q"⟩]).1,
      r'.video_id = "a" → r' = ⟨"a", "t", "d", "c", "p"⟩ :=
  C10_first_wins_within_batch []
    [⟨"a", "t", "d", "c", "p"⟩, ⟨"a", "u", "e", "f", "q"⟩] "a"
    ⟨"a", "t", "d", "c", "p"⟩ rfl rfl

/-! ### Metrics and filtering claims -/

/-- C2: for positive subscriber counts the ratio is exactly
`view_count / subscriber_count`; for a zero (or absent, reaching the engine
as zero) subscriber count the ratio is never computed and never reported as a
number, and the displayed fallback metric is the average views per video. -/
theorem C2_views_per_subscriber_safe :
    ∀ (vc sc : Nat) (vcs : List Nat),
      (0 < sc → views_per_subscriber vc sc = some ((vc : ℚ) / (sc : ℚ))) ∧
      (views_per_subscriber vc 0 = none) ∧
      (∀ q : ℚ, views_per_subscriber vc 0 ≠ some q) ∧
      (ratio_metric_display 0 vcs =
        ChannelMetric.avgViewsPerVideo (qMean (vcs.map (fun v => (v : ℚ))))) := by
  intro vc sc vcs
  refine ⟨?_, rfl, ?_, rfl⟩
  · intro h
    simp [views_per_subscriber, h]
  · intro q h
    exact Option.noConfusion h

/-- C2 witness: 500 views over 1000 subscribers is exactly 1/2. -/
theorem C2_views_per_subscriber_safe_witness :
    views_per_subscriber 500 1000 = some ((500 : ℚ) / (1000 : ℚ)) :=
  (C2_views_per_subscriber_safe 500 1000 []).1 (by norm_num)

/-- C6: date filtering retains exactly the records whose published timestamp
lies in the inclusive [start, end] range; each bound is optional
independently; with no bounds the record set is returned unchanged; and a
record published exactly at start_date 00:00:00 is retained. -/
theorem C6_date_filter_inclusive_optional :
    (∀ (vs : List VideoTs) (s e : Nat) (v : VideoTs),
       v ∈ filter_videos_by_date vs (some s) (some e) ↔
         v ∈ vs ∧ s ≤ v.publishedTs ∧ v.publishedTs ≤ e) ∧
    (∀ (vs : List VideoTs) (s : Nat) (v : VideoTs),
       v ∈ filter_videos_by_date vs (some s) none ↔
         v ∈ vs ∧ s ≤ v.publishedTs) ∧
    (∀ (vs : List VideoTs) (e : Nat) (v : VideoTs),
       v ∈ filter_videos_by_date vs none (some e) ↔
         v ∈ vs ∧ v.publishedTs ≤ e) ∧
    (∀ vs : List VideoTs, filter_videos_by_date vs none none = vs) ∧
    (∀ (vs : List VideoTs) (v : VideoTs) (d e : Nat),
       v ∈ vs → v.publishedTs = dayStart d → dayStart d ≤ e →
       v ∈ filter_videos_by_date vs (some (dayStart d)) (some e)) := by
  refine ⟨?_, ?_, ?_, fun vs => rfl, ?_⟩
  · intro vs s e v
    simp [filter_videos_by_date, List.mem_filter, and_assoc]
  · intro vs s v
    simp [filter_videos_by_date, List.mem_filter]
  · intro vs e v
    simp [filter_videos_by_date, List.mem_filter]
  · intro vs v d e hv hts hde
    simp only [filter_videos_by_date, List.mem_filter]
    refine ⟨hv, ?_⟩
    simp [hts, hde]

/-- C6 witness: a record published exactly at day 1, 00:00:00 (second 86400)
is retained by the range [day 1 00:00:00, second 90000]. -/
theorem C6_date_filter_inclusive_optional_witness :
    (⟨86400⟩ : VideoTs) ∈
      filter_videos_by_date [⟨86400⟩] (some (dayStart 1)) (some 90000) :=
  C6_date_filter_inclusive_optional.2.2.2.2 [⟨86400⟩] ⟨86400⟩ 1 90000
    (by simp) rfl (by norm_num [dayStart])

/-- Membership characterization of the view-count step: since view counts
are non-negative, skipping the filter at `min_views = 0` retains the same
records as running it. -/
theorem mem_apply_view_filter (mv : Nat) (df : SearchFrame) (r : SearchRow) :
    r ∈ (apply_view_filter mv df).rows ↔ r ∈ df.rows ∧ mv ≤ r.view_count := by
  unfold apply_view_filter
  rcases Nat.eq_zero_or_pos mv with h | h
  · subst h
    simp
  · simp [h, List.mem_filter]

/-- The view-count step does not touch column presence. -/
theorem hasSubscriberColumn_apply_view_filter (mv : Nat) (df : SearchFrame) :
    (apply_view_filter mv df).hasSubscriberColumn = df.hasSubscriberColumn := by
  unfold apply_view_filter
  rcases Nat.eq_zero_or_pos mv with h | h
  · subst h
    simp
  · simp [h]

/-- Membership characterization of the subscriber step: the filter runs only
when `max_subscribers > 0` and the column exists, and then keeps exactly the
rows whose entry compares `<= max_subscribers` under NaN-is-False. -/
theorem mem_apply_subscriber_filter (ms : Nat) (df : SearchFrame)
    (r : SearchRow) :
    r ∈ (apply_subscriber_filter ms df).rows ↔
      r ∈ df.rows ∧
        (0 < ms → df.hasSubscriberColumn = true →
          nanLe r.channel_subscriber_count ms = true) := by
  unfold apply_subscriber_filter
  by_cases h : 0 < ms ∧ df.hasSubscriberColumn = true
  · rw [if_pos h]
    simp [List.mem_filter, h.1, h.2]
  · rw [if_neg h]
    constructor
    · intro hr
      exact ⟨hr, fun ha hb => absurd ⟨ha, hb⟩ h⟩
    · intro hr
      exact hr.1

/-- C7 counterexample: the claim says a record whose subscriber data is
absent is kept as far as the subscriber filter is concerned; with the
`channel_subscriber_count` column present and `max_subscribers = 10`, the
record with `view_count = 5` and absent (NaN) subscriber data is dropped
(pandas evaluates `NaN <= 10` as False). -/
theorem C7_counterexample_nan_dropped :
    ¬ ((⟨5, none⟩ : SearchRow) ∈
        (apply_search_filters 0 10 ⟨true, [⟨5, none⟩]⟩).rows) := by
  intro h
  rw [show (apply_search_filters 0 10 ⟨true, [⟨5, none⟩]⟩).rows = [] from rfl] at h
  exact List.not_mem_nil _ h

/-- C7 (amended): a record survives the two filters iff it survives the
view-count threshold (the filter is only executed when `min_views > 0`, which
over non-negative counts retains the same records) and, whenever
`max_subscribers > 0` and the subscriber column exists in the frame, its
subscriber entry compares `<= max_subscribers` with pandas NaN semantics — so
a record whose per-record subscriber data is absent fails the comparison and
is dropped; the subscriber filter is skipped only when `max_subscribers = 0`
or the whole column is absent. -/
theorem C7_thresholding_amended :
    ∀ (min_views max_subscribers : Nat) (df : SearchFrame) (r : SearchRow),
      r ∈ (apply_search_filters min_views max_subscribers df).rows ↔
        r ∈ df.rows ∧ min_views ≤ r.view_count ∧
          (0 < max_subscribers → df.hasSubscriberColumn = true →
            nanLe r.channel_subscriber_count max_subscribers = true) := by
  intro mv ms df r
  unfold apply_search_filters
  rw [mem_apply_subscriber_filter, mem_apply_view_filter,
    hasSubscriberColumn_apply_view_filter, and_assoc]
